import Mathlib

/-!
Shallow embedding of the core of `le_completeness_analysis`:
the rate-limited REST transport (`rest_api_client.py`), the interval
batcher and batched energy loader (`public_api_client.py`), and the
caller-input validation of `ops_api_client.py`.

Timestamps are modelled as `Int` (Python integers), wall-clock instants
and durations as `Rat` (Python floats are exact decimal arithmetic at the
inputs considered here), and JSON payloads by an inductive `JSONValue`.
Python exceptions that escape a function are modelled with `Except PyExc`.
-/

/-- A JSON value as returned by `resp.json()`: null, boolean, number,
string, array, or object (an ordered association list of fields). -/
inductive JSONValue where
  | null : JSONValue
  | bool (b : Bool) : JSONValue
  | num (n : Int) : JSONValue
  | str (s : String) : JSONValue
  | arr (xs : List JSONValue) : JSONValue
  | obj (fields : List (String × JSONValue)) : JSONValue

/-- Python exceptions that the source can raise and does not catch. -/
inductive PyExc where
  | jsonDecodeError : PyExc
  | attributeError : PyExc
  | typeError : PyExc
deriving DecidableEq, Repr

/-- The contents of a `RestError` as constructed at the two creation
sites of `rest_api_client.request`: the non-2xx branch carries the
response status code, the request URL and the extracted `message` field;
the network-failure branch carries only the request URL. -/
inductive RestErr where
  | httpStatus (status : Nat) (url : String) (message : JSONValue) : RestErr
  | transport (url : String) : RestErr

/-- The outcome of the underlying `httpx` call in `request`, as seen by
the code: either a response (with status code, whether `resp.text` is
empty, the result of `resp.json()` — `none` meaning the body is not
parsable JSON so `.json()` raises — and the request URL), or a
network-level `httpx.RequestError`. -/
inductive HttpAttempt where
  | response (status : Nat) (emptyBody : Bool) (bodyJson : Option JSONValue)
      (url : String) : HttpAttempt
  | netError (url : String) : HttpAttempt

/-- `TimeInterval` dataclass from `public_api_client.py`. -/
structure TimeInterval where
  timestamp_start : Int
  timestamp_end : Int
deriving DecidableEq, Repr

/-- `Granularity` enum from `public_api_client.py`. -/
inductive Granularity where
  | FIVE_MINS | FIFTEEN_MINS | THIRTY_MINS | HOUR | DAY | WEEK | MONTH
deriving DecidableEq, Repr

/-- The argument actually passed to `_max_interval_for_granularity`: the
annotation says `Granularity` but Python does not enforce it, and the
`dict.get(granularity, 7)` default fires exactly when the key is not one
of the seven enum members. -/
inductive GranArg where
  | known (g : Granularity) : GranArg
  | unrecognized : GranArg

/-- The `MAX_INTERVALS_DAYS` table of `_max_interval_for_granularity`. -/
def MAX_INTERVALS_DAYS : Granularity → Int
  | .FIVE_MINS => 7
  | .FIFTEEN_MINS => 14
  | .THIRTY_MINS => 31
  | .HOUR => 90
  | .DAY => 3 * 365
  | .WEEK => 5 * 365
  | .MONTH => 10 * 365

/-- `MAX_INTERVALS_DAYS.get(granularity, 7) * 24 * 3600` over the
extended argument type: a key that is one of the seven members hits the
table, anything else takes the default `7`. -/
def _max_interval_for_granularity_arg : GranArg → Int
  | .known g => MAX_INTERVALS_DAYS g * 24 * 3600
  | .unrecognized => 7 * 24 * 3600

/-- `_max_interval_for_granularity` on a genuine `Granularity` value. -/
def _max_interval_for_granularity (granularity : Granularity) : Int :=
  _max_interval_for_granularity_arg (.known granularity)

/-- The list of values produced by Python `range(start, stop, step)` for
`step ≠ 0`: for positive step, `⌈(stop - start) / step⌉` values counting
up from `start` (division here is Euclidean, which on the nonnegative
numerators involved agrees with Python floor division); symmetrically
for negative step. -/
def pyRangeList (start stop step : Int) : List Int :=
  if 0 < step then
    (List.range ((stop - start + step - 1) / step).toNat).map
      (fun i : Nat => start + step * (i : Int))
  else
    (List.range ((start - stop + (-step) - 1) / (-step)).toNat).map
      (fun i : Nat => start + step * (i : Int))

/-- Python `range(start, stop, step)`: raises `ValueError` (modelled as
`none`) when `step = 0`, otherwise yields its element list. -/
def pyRange (start stop step : Int) : Option (List Int) :=
  if step = 0 then none else some (pyRangeList start stop step)

/-- `_calculate_intervals_for`: the list comprehension
`[TimeInterval(b, min(b + batch_interval, timestamp_end)) for b in
range(timestamp_start, timestamp_end, batch_interval)]` with
`batch_interval = _max_interval_for_granularity(granularity)`. -/
def _calculate_intervals_for (granularity : Granularity)
    (timestamp_start timestamp_end : Int) : Option (List TimeInterval) :=
  (pyRange timestamp_start timestamp_end
      (_max_interval_for_granularity granularity)).map
    (List.map (fun batch_start =>
      ⟨batch_start,
       min (batch_start + _max_interval_for_granularity granularity)
         timestamp_end⟩))

/-- The batching comprehension of the source with the window abstracted:
`[TimeInterval(b, min(b + w, te)) for b in range(ts, te, w)]` (the same
shape is inlined again in `load_short_energy` with `w = 12 * 3600`). -/
def batchList (w ts te : Int) : List TimeInterval :=
  (pyRangeList ts te w).map (fun b => ⟨b, min (b + w) te⟩)

/-- Python `list.extend(v)`: extends by the elements of an iterable
(list elements, object keys, string characters) and raises `TypeError`
on a non-iterable (`None`, number, boolean). -/
def pyExtend (acc : List JSONValue) (v : Option JSONValue) :
    Except PyExc (List JSONValue) :=
  match v with
  | some (.arr xs) => .ok (acc ++ xs)
  | some (.obj fields) => .ok (acc ++ fields.map (fun p => .str p.1))
  | some (.str s) => .ok (acc ++ s.data.map (fun c => .str (String.mk [c])))
  | _ => .error .typeError

/-- The loop of `_load_energy`, instrumented with the list of intervals
for which a `super().get` call was actually issued. `fetch` abstracts
`super().get(endpoint, params)` for the params built from one interval;
`acc` is the running `energy_data`. On each interval the code issues the
request, returns `(None, error)` as soon as `error is not None`, and
otherwise runs `energy_data.extend(result)` (which raises `TypeError`
when the successful result is not iterable, e.g. `None`). -/
def _load_energy_trace (fetch : TimeInterval → Option JSONValue × Option RestErr) :
    List TimeInterval → List JSONValue →
      Except PyExc (Option (List JSONValue) × Option RestErr) × List TimeInterval
  | [], acc => (.ok (some acc, none), [])
  | i :: rest, acc =>
    match (fetch i).2 with
    | some e => (.ok (none, some e), [i])
    | none =>
      match pyExtend acc (fetch i).1 with
      | .error exc => (.error exc, [i])
      | .ok acc2 =>
        let r := _load_energy_trace fetch rest acc2
        (r.1, i :: r.2)

/-- `_load_energy`: the returned value of the loop (the source starts
with `energy_data = []`; the accumulator is kept as a parameter). -/
def _load_energy (fetch : TimeInterval → Option JSONValue × Option RestErr)
    (intervals : List TimeInterval) (energy_data : List JSONValue) :
    Except PyExc (Option (List JSONValue) × Option RestErr) :=
  (_load_energy_trace fetch intervals energy_data).1

/-- `load_long_energy`: computes the intervals for the granularity and
delegates to `_load_energy` (the outer `Option` is the interval
computation, `none` being an unreachable `range` step error). -/
def load_long_energy (fetch : TimeInterval → Option JSONValue × Option RestErr)
    (timestamp_start timestamp_end : Int) (granularity : Granularity) :
    Option (Except PyExc (Option (List JSONValue) × Option RestErr)) :=
  (_calculate_intervals_for granularity timestamp_start timestamp_end).map
    (fun intervals => _load_energy fetch intervals [])

/-- The try/except body of `request` for a single attempt: 2xx with
empty text returns `(None, None)`; 2xx with a body returns
`(resp.json(), None)` — raising `json.JSONDecodeError` (uncaught) when
the body is not JSON; non-2xx runs
`http_error.response.json().get("message", "")`, which raises
(uncaught) when the body is not JSON or not a JSON object, and
otherwise returns `(None, RestError(status, url, message))`; a network
error returns `(None, RestError(url))`. -/
def requestResult (att : HttpAttempt) :
    Except PyExc (Option JSONValue × Option RestErr) :=
  match att with
  | .netError url => .ok (none, some (.transport url))
  | .response status emptyBody bodyJson url =>
    if 200 ≤ status ∧ status < 300 then
      if emptyBody then .ok (none, none)
      else
        match bodyJson with
        | none => .error .jsonDecodeError
        | some v => .ok (some v, none)
    else
      match bodyJson with
      | none => .error .jsonDecodeError
      | some (.obj fields) =>
        .ok (none, some (.httpStatus status url
          ((fields.lookup "message").getD (.str ""))))
      | some _ => .error .attributeError

/-- `_throttler` wait computation: with no prior request it returns at
once (wait `0`); otherwise the elapsed time is
`last_request_time.diff().in_seconds()` — pendulum's absolute difference
truncated to a whole number of seconds (`int(total_seconds())`, which on
the nonnegative absolute difference is the floor) — and the wait is
`max(0, 1 / requests_per_sec_max - elapsed)`. -/
def _throttler (requests_per_sec_max : Int) (last_request_time : Option Rat)
    (now : Rat) : Rat :=
  match last_request_time with
  | none => 0
  | some t =>
    max 0 (1 / (requests_per_sec_max : Rat) - (⌊|now - t|⌋ : Rat))

/-- One call of `request`: the throttler wait computed at entry time
`t_before`, the attempt's result, and the new `_last_request_time` set
by the `finally` block at completion time `t_after` (the `finally` runs
on every path, including the uncaught-exception ones). -/
def request (requests_per_sec_max : Int) (last_request_time : Option Rat)
    (t_before t_after : Rat) (att : HttpAttempt) :
    Rat × Except PyExc (Option JSONValue × Option RestErr) × Option Rat :=
  (_throttler requests_per_sec_max last_request_time t_before,
   requestResult att, some t_after)

/-- Modelled from the claim's words (for comparison with the code's
`_throttler`): with elapsed taken exactly as `now - last_request_time`,
block for `1/max_requests_per_second - elapsed` when
`elapsed < 1/max_requests_per_second` and not at all otherwise. -/
def claimedWaitDuration (requests_per_sec_max : Int) (last : Option Rat)
    (now : Rat) : Rat :=
  match last with
  | none => 0
  | some t =>
    if now - t < 1 / (requests_per_sec_max : Rat) then
      1 / (requests_per_sec_max : Rat) - (now - t)
    else 0

/-- What `update_wifi_credentials` does with its credential arguments:
either the early `(None, CallerError(...))` return, or a PATCH issued
with a payload holding exactly the provided fields. -/
inductive WifiUpdateOutcome where
  | callerError (msg : String) : WifiUpdateOutcome
  | patchIssued (ssid psk : Option String) : WifiUpdateOutcome
deriving DecidableEq, Repr

/-- `update_wifi_credentials`: returns the `CallerError` tuple when both
`ssid` and `psk` are `None`, otherwise builds the wifi payload with the
provided fields and issues the PATCH. -/
def update_wifi_credentials (ssid psk : Option String) : WifiUpdateOutcome :=
  if ssid = none ∧ psk = none then
    .callerError "Request to update WiFi credentials requires at least one of SSID and PSK to be defined."
  else
    .patchIssued ssid psk

/-- What `get_status_history` does before/at its network call: raise an
exception, or issue the GET with the given range parameters. -/
inductive StatusHistoryOutcome where
  | raised (e : PyExc) : StatusHistoryOutcome
  | requestIssued (fromTs toTs : Option Int) : StatusHistoryOutcome
deriving DecidableEq, Repr

/-- `get_status_history` validation: on both bounds `None`, and on
`timestamp_start > timestamp_end`, the code evaluates
`RestError("...")` — but `RestError.__init__` requires a `request`
argument, so the construction itself raises `TypeError` before any
tuple is returned; otherwise the GET is issued with the bounds. -/
def get_status_history (timestamp_start timestamp_end : Option Int) :
    StatusHistoryOutcome :=
  if timestamp_start = none ∧ timestamp_end = none then
    .raised .typeError
  else
    match timestamp_start, timestamp_end with
    | some a, some b =>
      if b < a then .raised .typeError
      else .requestIssued timestamp_start timestamp_end
    | _, _ => .requestIssued timestamp_start timestamp_end

/-- Every granularity's window is positive. -/
theorem max_interval_pos (g : Granularity) :
    0 < _max_interval_for_granularity g := by
  cases g <;> decide

/-- For a positive step and `start < stop`, the Python range list peels
off its first element. -/
theorem pyRangeList_cons (start stop step : Int) (hs : 0 < step)
    (h : start < stop) :
    pyRangeList start stop step =
      start :: pyRangeList (start + step) stop step := by
  unfold pyRangeList
  rw [if_pos hs, if_pos hs]
  have hA : 0 ≤ stop - (start + step) + step - 1 := by omega
  have hq : 0 ≤ (stop - (start + step) + step - 1) / step :=
    Int.ediv_nonneg hA (le_of_lt hs)
  have hnum : stop - start + step - 1 =
      (stop - (start + step) + step - 1) + 1 * step := by ring
  have hdiv : (stop - start + step - 1) / step =
      (stop - (start + step) + step - 1) / step + 1 := by
    rw [hnum, Int.add_mul_ediv_right _ _ (ne_of_gt hs)]
  have htn : ((stop - start + step - 1) / step).toNat =
      ((stop - (start + step) + step - 1) / step).toNat + 1 := by omega
  rw [htn, List.range_succ_eq_map, List.map_cons, List.map_map]
  have hfun : ((fun i : Nat => start + step * (i : Int)) ∘ Nat.succ) =
      fun i : Nat => (start + step) + step * (i : Int) := by
    funext i
    simp only [Function.comp_apply, Nat.succ_eq_add_one]
    push_cast
    ring
  rw [hfun]
  simp

/-- For a positive step and `stop ≤ start`, the Python range is empty. -/
theorem pyRangeList_nil (start stop step : Int) (hs : 0 < step)
    (h : stop ≤ start) :
    pyRangeList start stop step = [] := by
  unfold pyRangeList
  rw [if_pos hs]
  have hlt : (stop - start + step - 1) / step < 1 := by
    rw [Int.ediv_lt_iff_lt_mul hs]
    omega
  have : ((stop - start + step - 1) / step).toNat = 0 := by omega
  rw [this]
  simp

/-- Peeling the first batch off the interval comprehension. -/
theorem batchList_cons (w ts te : Int) (hw : 0 < w) (h : ts < te) :
    batchList w ts te = ⟨ts, min (ts + w) te⟩ :: batchList w (ts + w) te := by
  unfold batchList
  rw [pyRangeList_cons ts te w hw h, List.map_cons]

/-- The interval comprehension is empty when the range is empty. -/
theorem batchList_nil (w ts te : Int) (hw : 0 < w) (h : te ≤ ts) :
    batchList w ts te = [] := by
  unfold batchList
  rw [pyRangeList_nil ts te w hw h]
  rfl

/-- The batching comprehension partitions `[ts, te]`: in ascending
contiguous order, first start `ts`, last end `te`, every window of
positive length at most `w`, and every window but the last of length
exactly `w`; empty exactly when the range is empty. -/
theorem batchList_partition (w : Int) (hw : 0 < w) :
    ∀ n : Nat, ∀ ts te : Int, (te - ts).toNat ≤ n → ts ≤ te →
      ((ts = te → batchList w ts te = []) ∧
       (batchList w ts te).head?.map TimeInterval.timestamp_start =
         (if ts < te then some ts else none) ∧
       (batchList w ts te).getLast?.map TimeInterval.timestamp_end =
         (if ts < te then some te else none) ∧
       List.Chain' (fun a b => a.timestamp_end = b.timestamp_start)
         (batchList w ts te) ∧
       (∀ i ∈ batchList w ts te,
         i.timestamp_start < i.timestamp_end ∧
           i.timestamp_end - i.timestamp_start ≤ w) ∧
       (∀ i ∈ (batchList w ts te).dropLast,
         i.timestamp_end - i.timestamp_start = w)) := by
  intro n
  induction n with
  | zero =>
    intro ts te hn h
    have hte : te ≤ ts := by omega
    rw [batchList_nil w ts te hw hte]
    have hlt : ¬ ts < te := by omega
    simp [hlt]
  | succ n ih =>
    intro ts te hn h
    by_cases hlt : ts < te
    · by_cases hce : te ≤ ts + w
      · have heq : batchList w ts te = [⟨ts, te⟩] := by
          rw [batchList_cons w ts te hw hlt, batchList_nil w (ts + w) te hw hce,
            min_eq_right hce]
        rw [heq]
        refine ⟨fun hh => absurd hh (by omega), ?_, ?_, ?_, ?_, ?_⟩
        · simp [hlt]
        · simp [hlt]
        · simp
        · intro i hi
          rw [List.mem_singleton] at hi
          subst hi
          refine ⟨hlt, ?_⟩
          show te - ts ≤ w
          omega
        · intro i hi
          simp at hi
      · have h2 : ts + w < te := by omega
        have hmin : min (ts + w) te = ts + w := min_eq_left (le_of_lt h2)
        have heq : batchList w ts te =
            ⟨ts, ts + w⟩ :: batchList w (ts + w) te := by
          rw [batchList_cons w ts te hw hlt, hmin]
        have hbound : (te - (ts + w)).toNat ≤ n := by omega
        obtain ⟨ih1, ih2, ih3, ih4, ih5, ih6⟩ :=
          ih (ts + w) te hbound (le_of_lt h2)
        rw [if_pos h2] at ih2 ih3
        cases hL2 : batchList w (ts + w) te with
        | nil =>
          rw [hL2] at ih2
          simp at ih2
        | cons b l2 =>
          rw [hL2] at ih2 ih3 ih4 ih5 ih6
          have hb : b.timestamp_start = ts + w := by
            simpa using ih2
          rw [heq, hL2]
          refine ⟨fun hh => absurd hh (by omega), ?_, ?_, ?_, ?_, ?_⟩
          · simp [hlt]
          · rw [List.getLast?_cons_cons, if_pos hlt]
            exact ih3
          · rw [List.chain'_cons]
            exact ⟨hb.symm, ih4⟩
          · intro i hi
            rw [List.mem_cons] at hi
            rcases hi with rfl | hi
            · refine ⟨?_, ?_⟩
              · show ts < ts + w
                omega
              · show ts + w - ts ≤ w
                omega
            · exact ih5 i hi
          · intro i hi
            change i ∈ (⟨ts, ts + w⟩ : TimeInterval) :: (b :: l2).dropLast at hi
            rw [List.mem_cons] at hi
            rcases hi with rfl | hi
            · show ts + w - ts = w
              omega
            · exact ih6 i hi
    · have hte : ts = te := by omega
      rw [batchList_nil w ts te hw (by omega)]
      simp [hlt]

/-- C1: for every `timestamp_start ≤ timestamp_end` and every
granularity, the interval list produced by `_calculate_intervals_for`
partitions the range exactly: contiguous ascending intervals (each end
equals the next start), the first starting at `timestamp_start`, the
last ending at `timestamp_end` when the range is non-empty (and the
list is empty when `timestamp_start = timestamp_end`), every interval
of positive length at most the granularity-derived window, and all but
the last of length exactly that window. -/
theorem calculate_intervals_for_partitions (g : Granularity) (ts te : Int)
    (L : List TimeInterval) (h : ts ≤ te)
    (hL : _calculate_intervals_for g ts te = some L) :
    (ts = te → L = []) ∧
    L.head?.map TimeInterval.timestamp_start =
      (if ts < te then some ts else none) ∧
    L.getLast?.map TimeInterval.timestamp_end =
      (if ts < te then some te else none) ∧
    List.Chain' (fun a b => a.timestamp_end = b.timestamp_start) L ∧
    (∀ i ∈ L, i.timestamp_start < i.timestamp_end ∧
      i.timestamp_end - i.timestamp_start ≤ _max_interval_for_granularity g) ∧
    (∀ i ∈ L.dropLast,
      i.timestamp_end - i.timestamp_start = _max_interval_for_granularity g) := by
  have hw := max_interval_pos g
  have hne : _max_interval_for_granularity g ≠ 0 := by omega
  have hsome : _calculate_intervals_for g ts te =
      some (batchList (_max_interval_for_granularity g) ts te) := by
    unfold _calculate_intervals_for pyRange batchList
    rw [if_neg hne]
    rfl
  have hLe : batchList (_max_interval_for_granularity g) ts te = L :=
    Option.some_inj.mp (hsome.symm.trans hL)
  subst hLe
  exact batchList_partition _ hw ((te - ts).toNat) ts te le_rfl h

/-- Witness for `calculate_intervals_for_partitions`: granularity
`FIVE_MINS` (window 604800 s) on the range `[0, 700000]` yields the two
intervals `(0, 604800), (604800, 700000)` with all the partition
properties. -/
theorem calculate_intervals_for_partitions_witness :
    ((0 : Int) ≤ 700000 ∧
     _calculate_intervals_for Granularity.FIVE_MINS 0 700000 =
       some [⟨0, 604800⟩, ⟨604800, 700000⟩]) ∧
    (((0 : Int) = 700000 →
        ([⟨0, 604800⟩, ⟨604800, 700000⟩] : List TimeInterval) = []) ∧
     ([⟨0, 604800⟩, ⟨604800, 700000⟩] : List TimeInterval).head?.map
         TimeInterval.timestamp_start =
       (if (0 : Int) < 700000 then some 0 else none) ∧
     ([⟨0, 604800⟩, ⟨604800, 700000⟩] : List TimeInterval).getLast?.map
         TimeInterval.timestamp_end =
       (if (0 : Int) < 700000 then some 700000 else none) ∧
     List.Chain' (fun a b => a.timestamp_end = b.timestamp_start)
       ([⟨0, 604800⟩, ⟨604800, 700000⟩] : List TimeInterval) ∧
     (∀ i ∈ ([⟨0, 604800⟩, ⟨604800, 700000⟩] : List TimeInterval),
       i.timestamp_start < i.timestamp_end ∧
         i.timestamp_end - i.timestamp_start ≤ 604800) ∧
     (∀ i ∈ ([⟨0, 604800⟩, ⟨604800, 700000⟩] : List TimeInterval).dropLast,
       i.timestamp_end - i.timestamp_start = 604800)) :=
  ⟨⟨by decide, rfl⟩,
   calculate_intervals_for_partitions Granularity.FIVE_MINS 0 700000
     [⟨0, 604800⟩, ⟨604800, 700000⟩] (by decide) rfl⟩

/-- C9: the granularity-to-window table, in seconds: 5-minute maps to
7 days, 15-minute to 14, 30-minute to 31, hourly to 90, daily to 3·365,
weekly to 5·365, monthly to 10·365 (each times 86400 seconds per day),
and any unrecognized argument takes the 7-day default. -/
theorem max_interval_for_granularity_table :
    _max_interval_for_granularity_arg (.known .FIVE_MINS) = 7 * 86400 ∧
    _max_interval_for_granularity_arg (.known .FIFTEEN_MINS) = 14 * 86400 ∧
    _max_interval_for_granularity_arg (.known .THIRTY_MINS) = 31 * 86400 ∧
    _max_interval_for_granularity_arg (.known .HOUR) = 90 * 86400 ∧
    _max_interval_for_granularity_arg (.known .DAY) = 3 * 365 * 86400 ∧
    _max_interval_for_granularity_arg (.known .WEEK) = 5 * 365 * 86400 ∧
    _max_interval_for_granularity_arg (.known .MONTH) = 10 * 365 * 86400 ∧
    _max_interval_for_granularity_arg .unrecognized = 7 * 86400 := by
  decide

/-- C10: every possible argument of `_max_interval_for_granularity` —
the seven members and any unrecognized value — yields at least 604800
seconds (7 days), hence a strictly positive batching step, and
`_calculate_intervals_for` never hits the zero-step `range` error: it
returns a (finite) interval list for all integer bounds. -/
theorem max_interval_positive_and_batching_total (a : GranArg)
    (g : Granularity) (ts te : Int) :
    604800 ≤ _max_interval_for_granularity_arg a ∧
    0 < _max_interval_for_granularity g ∧
    (_calculate_intervals_for g ts te).isSome = true := by
  refine ⟨?_, max_interval_pos g, ?_⟩
  · cases a with
    | known g2 => cases g2 <;> decide
    | unrecognized => decide
  · have hw := max_interval_pos g
    have hne : _max_interval_for_granularity g ≠ 0 := by omega
    simp [_calculate_intervals_for, pyRange, hne]

/-- Loop invariant for abort: with every interval of `pre` succeeding
with a list payload and `iv` failing, the loop returns the failure pair
and has issued exactly the requests for `pre ++ [iv]`. -/
theorem load_energy_trace_abort
    (fetch : TimeInterval → Option JSONValue × Option RestErr)
    (iv : TimeInterval) (e : RestErr) (hfail : (fetch iv).2 = some e)
    (post : List TimeInterval) :
    ∀ pre : List TimeInterval,
      (∀ j ∈ pre, ∃ xs, fetch j = (some (JSONValue.arr xs), none)) →
      ∀ acc : List JSONValue,
        _load_energy_trace fetch (pre ++ iv :: post) acc =
          (.ok (none, some e), pre ++ [iv]) := by
  intro pre
  induction pre with
  | nil =>
    intro _ acc
    simp only [List.nil_append, _load_energy_trace, hfail]
  | cons j pre2 ih =>
    intro hpre acc
    obtain ⟨xs, hx⟩ := hpre j (List.mem_cons_self j pre2)
    simp only [List.cons_append, _load_energy_trace, hx, pyExtend,
      List.append_eq]
    rw [ih (fun k hk => hpre k (List.mem_cons_of_mem j hk)) (acc ++ xs)]

/-- Loop invariant for aggregation: with every interval succeeding with
its list payload, the loop returns the accumulator extended by the
concatenated payloads, in interval order, and no error. -/
theorem load_energy_trace_aggregate
    (fetch : TimeInterval → Option JSONValue × Option RestErr)
    (payload : TimeInterval → List JSONValue) :
    ∀ intervals : List TimeInterval,
      (∀ i ∈ intervals, fetch i = (some (JSONValue.arr (payload i)), none)) →
      ∀ acc : List JSONValue,
        _load_energy_trace fetch intervals acc =
          (.ok (some (acc ++ (intervals.map payload).flatten), none), intervals) := by
  intro intervals
  induction intervals with
  | nil =>
    intro _ acc
    simp [_load_energy_trace]
  | cons i rest ih =>
    intro hall acc
    have hx := hall i (List.mem_cons_self i rest)
    simp only [_load_energy_trace, hx, pyExtend]
    rw [ih (fun k hk => hall k (List.mem_cons_of_mem i hk)) (acc ++ payload i)]
    simp

/-- C3: if every interval before `iv` succeeds (with a sequence payload)
and the request for `iv` returns an error, `_load_energy` returns
`(None, that error)`, issues no request for any interval after `iv`
(the issued-request trace is exactly `pre ++ [iv]`), and no payload from
the earlier successful intervals appears in the returned result (the
value slot is `None`). -/
theorem load_energy_aborts_on_first_error
    (fetch : TimeInterval → Option JSONValue × Option RestErr)
    (pre post : List TimeInterval) (iv : TimeInterval) (e : RestErr)
    (hpre : ∀ j ∈ pre, ∃ xs, fetch j = (some (JSONValue.arr xs), none))
    (hfail : (fetch iv).2 = some e) :
    _load_energy fetch (pre ++ iv :: post) [] = .ok (none, some e) ∧
    (_load_energy_trace fetch (pre ++ iv :: post) []).2 = pre ++ [iv] := by
  have h := load_energy_trace_abort fetch iv e hfail post pre hpre []
  exact ⟨by rw [_load_energy, h], by rw [h]⟩

/-- Witness for `load_energy_aborts_on_first_error`: a stub transport
succeeding with `["a"]` on the first interval and failing afterwards;
the loader returns the interval-2 error, the `"a"` payload is absent,
and the third interval is never requested. -/
theorem load_energy_aborts_on_first_error_witness :
    ((∀ j ∈ ([⟨0, 1⟩] : List TimeInterval), ∃ xs,
        (fun iv : TimeInterval =>
          if iv.timestamp_start = 0 then
            ((some (JSONValue.arr [JSONValue.str "a"]) : Option JSONValue),
             (none : Option RestErr))
          else (none, some (RestErr.transport "u"))) j =
          (some (JSONValue.arr xs), none)) ∧
     ((fun iv : TimeInterval =>
          if iv.timestamp_start = 0 then
            ((some (JSONValue.arr [JSONValue.str "a"]) : Option JSONValue),
             (none : Option RestErr))
          else (none, some (RestErr.transport "u"))) ⟨1, 2⟩).2 =
        some (RestErr.transport "u")) ∧
    (_load_energy
        (fun iv : TimeInterval =>
          if iv.timestamp_start = 0 then
            ((some (JSONValue.arr [JSONValue.str "a"]) : Option JSONValue),
             (none : Option RestErr))
          else (none, some (RestErr.transport "u")))
        ([⟨0, 1⟩] ++ ⟨1, 2⟩ :: [⟨2, 3⟩]) [] =
      .ok (none, some (RestErr.transport "u")) ∧
     (_load_energy_trace
        (fun iv : TimeInterval =>
          if iv.timestamp_start = 0 then
            ((some (JSONValue.arr [JSONValue.str "a"]) : Option JSONValue),
             (none : Option RestErr))
          else (none, some (RestErr.transport "u")))
        ([⟨0, 1⟩] ++ ⟨1, 2⟩ :: [⟨2, 3⟩]) []).2 = [⟨0, 1⟩] ++ [⟨1, 2⟩]) :=
  ⟨⟨fun j hj => by
      rw [List.mem_singleton] at hj
      subst hj
      exact ⟨[JSONValue.str "a"], rfl⟩,
    rfl⟩,
   load_energy_aborts_on_first_error _ [⟨0, 1⟩] [⟨2, 3⟩] ⟨1, 2⟩
     (RestErr.transport "u")
     (fun j hj => by
       rw [List.mem_singleton] at hj
       subst hj
       exact ⟨[JSONValue.str "a"], rfl⟩)
     rfl⟩

/-- C4: when every interval's request succeeds with a sequence payload,
`_load_energy` returns `(aggregate, None)` where the aggregate is the
concatenation of the per-interval sequences in interval order. -/
theorem load_energy_aggregates_in_order
    (fetch : TimeInterval → Option JSONValue × Option RestErr)
    (payload : TimeInterval → List JSONValue)
    (intervals : List TimeInterval)
    (hall : ∀ i ∈ intervals, fetch i = (some (JSONValue.arr (payload i)), none)) :
    _load_energy fetch intervals [] =
      .ok (some ((intervals.map payload).flatten), none) := by
  have h := load_energy_trace_aggregate fetch payload intervals hall []
  rw [_load_energy, h]
  simp

/-- Witness for `load_energy_aggregates_in_order`: a stub transport
returning `[0]`, `[1]`, `[2]` for three intervals aggregates to
`[0, 1, 2]` in that order. -/
theorem load_energy_aggregates_in_order_witness :
    (∀ i ∈ ([⟨0, 1⟩, ⟨1, 2⟩, ⟨2, 3⟩] : List TimeInterval),
      (fun iv : TimeInterval =>
        ((some (JSONValue.arr [JSONValue.num iv.timestamp_start]) :
            Option JSONValue), (none : Option RestErr))) i =
        (some (JSONValue.arr
          ((fun iv : TimeInterval => [JSONValue.num iv.timestamp_start]) i)),
         none)) ∧
    _load_energy
      (fun iv : TimeInterval =>
        ((some (JSONValue.arr [JSONValue.num iv.timestamp_start]) :
            Option JSONValue), (none : Option RestErr)))
      [⟨0, 1⟩, ⟨1, 2⟩, ⟨2, 3⟩] [] =
      .ok (some [JSONValue.num 0, JSONValue.num 1, JSONValue.num 2], none) :=
  ⟨fun i _ => rfl, by
    have h := load_energy_aggregates_in_order
      (fun iv : TimeInterval =>
        ((some (JSONValue.arr [JSONValue.num iv.timestamp_start]) :
            Option JSONValue), (none : Option RestErr)))
      (fun iv : TimeInterval => [JSONValue.num iv.timestamp_start])
      [⟨0, 1⟩, ⟨1, 2⟩, ⟨2, 3⟩] (fun i _ => rfl)
    exact h⟩

/-- C2 counterexample: a 2xx response with an empty body makes `request`
return `(None, None)` — both slots null, refuting "never both null". -/
theorem request_both_slots_null_counterexample :
    requestResult (.response 200 true none "u") = .ok (none, none) := rfl

/-- C2 (amended): on every outcome on which `request` returns at all
(does not raise), never are both slots non-null, and the only way both
slots are null is a 2xx response with an empty body; contrary to the
claim, that outcome does yield `(None, None)`. -/
theorem request_slots_amended (att : HttpAttempt)
    (v : Option JSONValue) (e : Option RestErr)
    (h : requestResult att = .ok (v, e)) :
    (v ≠ none → e = none) ∧ (e ≠ none → v = none) ∧
    ((v = none ∧ e = none) →
      match att with
      | .response s eb _ _ => (200 ≤ s ∧ s < 300) ∧ eb = true
      | .netError _ => False) := by
  cases att with
  | netError url =>
    simp only [requestResult, Except.ok.injEq, Prod.mk.injEq] at h
    obtain ⟨hv, he⟩ := h
    subst hv
    subst he
    refine ⟨fun hc => absurd rfl hc, fun _ => rfl, ?_⟩
    rintro ⟨-, h2⟩
    exact absurd h2 (by simp)
  | response status eb bj url =>
    simp only [requestResult] at h
    by_cases hs : 200 ≤ status ∧ status < 300
    · rw [if_pos hs] at h
      cases eb with
      | true =>
        simp only [if_true] at h
        simp only [Except.ok.injEq, Prod.mk.injEq] at h
        obtain ⟨hv, he⟩ := h
        subst hv
        subst he
        exact ⟨fun hc => absurd rfl hc, fun _ => rfl, fun _ => ⟨hs, rfl⟩⟩
      | false =>
        simp only [Bool.false_eq_true, if_false] at h
        cases bj with
        | none => simp at h
        | some v2 =>
          simp only [Except.ok.injEq, Prod.mk.injEq] at h
          obtain ⟨hv, he⟩ := h
          subst hv
          subst he
          refine ⟨fun _ => rfl, fun hc => absurd rfl hc, ?_⟩
          rintro ⟨h1, -⟩
          exact absurd h1 (by simp)
    · rw [if_neg hs] at h
      cases bj with
      | none => simp at h
      | some v2 =>
        cases v2 with
        | obj fields =>
          simp only [Except.ok.injEq, Prod.mk.injEq] at h
          obtain ⟨hv, he⟩ := h
          subst hv
          subst he
          refine ⟨fun hc => absurd rfl hc, fun _ => rfl, ?_⟩
          rintro ⟨-, h2⟩
          exact absurd h2 (by simp)
        | null => simp at h
        | bool b => simp at h
        | num n => simp at h
        | str s => simp at h
        | arr xs => simp at h

/-- Witness for `request_slots_amended` at a 204 empty-body response:
the returned pair is `(None, None)` and the amended properties hold. -/
theorem request_slots_amended_witness :
    requestResult (.response 204 true none "u") =
      .ok ((none : Option JSONValue), (none : Option RestErr)) ∧
    (((none : Option JSONValue) ≠ none → (none : Option RestErr) = none) ∧
     ((none : Option RestErr) ≠ none → (none : Option JSONValue) = none) ∧
     (((none : Option JSONValue) = none ∧ (none : Option RestErr) = none) →
       match HttpAttempt.response 204 true none "u" with
       | .response s eb _ _ => (200 ≤ s ∧ s < 300) ∧ eb = true
       | .netError _ => False)) :=
  ⟨rfl, request_slots_amended (.response 204 true none "u") none none rfl⟩

/-- C5 counterexample: with `max_requests_per_second = 2` and
`0.7` seconds elapsed since the last request, the claim predicts no
blocking (`0.7 ≥ 0.5`), but the code — which truncates the elapsed time
to whole seconds — waits `0.5` seconds. -/
theorem throttler_wait_counterexample :
    _throttler 2 (some 0) (7 / 10) = 1 / 2 ∧
    claimedWaitDuration 2 (some 0) (7 / 10) = 0 := by
  have hf : ⌊(7 / 10 : Rat)⌋ = 0 := by
    rw [Int.floor_eq_iff]
    norm_num
  constructor
  · show max 0 (1 / ((2 : Int) : Rat) - (⌊|(7 / 10 : Rat) - 0|⌋ : Rat)) = 1 / 2
    rw [sub_zero, abs_of_nonneg (by norm_num : (0 : Rat) ≤ 7 / 10), hf]
    rw [max_eq_right] <;> norm_num
  · show (if (7 / 10 : Rat) - 0 < 1 / ((2 : Int) : Rat) then
        1 / ((2 : Int) : Rat) - ((7 / 10 : Rat) - 0) else 0) = 0
    rw [if_neg]
    norm_num

/-- C5 (amended): with no prior request the throttler does not block;
otherwise, with the elapsed time truncated to a whole number of seconds
(`int(total_seconds())` of the pendulum diff), it blocks for exactly
`1/max_requests_per_second - trunc(elapsed)` when that is positive and
not at all otherwise; and after every attempt — success, HTTP status
error, or network error — the `finally` block records
`last_request_time = now`, so the timestamp is updated unconditionally
and never decreases under a monotone clock. -/
theorem throttler_and_timestamp_spec (requests_per_sec_max : Int)
    (st : Option Rat) (t t1 t2 : Rat) (att : HttpAttempt)
    (hmax : 1 ≤ requests_per_sec_max) (hst : st = some t) (ht : t ≤ t1) :
    _throttler requests_per_sec_max none t1 = 0 ∧
    _throttler requests_per_sec_max st t1 =
      (if (⌊t1 - t⌋ : Rat) < 1 / (requests_per_sec_max : Rat) then
        1 / (requests_per_sec_max : Rat) - (⌊t1 - t⌋ : Rat)
      else 0) ∧
    (request requests_per_sec_max st t1 t2 att).2.2 = some t2 ∧
    (t ≤ t2 → ∀ u ∈ (request requests_per_sec_max st t1 t2 att).2.2, t ≤ u) := by
  subst hst
  refine ⟨rfl, ?_, rfl, ?_⟩
  · show max 0 (1 / (requests_per_sec_max : Rat) - (⌊|t1 - t|⌋ : Rat)) = _
    rw [abs_of_nonneg (by linarith : (0 : Rat) ≤ t1 - t)]
    rcases lt_or_le ((⌊t1 - t⌋ : Int) : Rat) (1 / (requests_per_sec_max : Rat))
      with hc | hc
    · rw [if_pos hc, max_eq_right (by linarith)]
    · rw [if_neg (not_lt.mpr hc), max_eq_left (by linarith)]
  · intro ht2 u hu
    rw [Option.mem_def] at hu
    simp only [request, Option.some.injEq] at hu
    subst hu
    exact ht2

/-- Witness for `throttler_and_timestamp_spec` at rate 2, last request
at time 0, throttling at time 0.7, completing at time 1. -/
theorem throttler_and_timestamp_spec_witness :
    ((1 : Int) ≤ 2 ∧ (some (0 : Rat) = some 0) ∧ (0 : Rat) ≤ 7 / 10) ∧
    (_throttler 2 none (7 / 10) = 0 ∧
     _throttler 2 (some (0 : Rat)) (7 / 10) =
       (if (⌊(7 / 10 : Rat) - 0⌋ : Rat) < 1 / ((2 : Int) : Rat) then
         1 / ((2 : Int) : Rat) - (⌊(7 / 10 : Rat) - 0⌋ : Rat)
       else 0) ∧
     (request 2 (some (0 : Rat)) (7 / 10) 1 (.netError "u")).2.2 = some 1 ∧
     ((0 : Rat) ≤ 1 →
       ∀ u ∈ (request 2 (some (0 : Rat)) (7 / 10) 1 (.netError "u")).2.2,
         (0 : Rat) ≤ u)) :=
  ⟨⟨by norm_num, rfl, by norm_num⟩,
   throttler_and_timestamp_spec 2 (some 0) 0 (7 / 10) 1 (.netError "u")
     (by norm_num) rfl (by norm_num)⟩

/-- C6: evaluation at outcomes where a core operation raises instead of
returning a `(value, error)` pair: a non-2xx response whose body is not
JSON (uncaught `json.JSONDecodeError` inside the status-error handler),
a non-2xx response whose body is JSON but not an object (uncaught
`AttributeError` on `.get`), and `_load_energy` receiving a successful
empty-body `(None, None)` per-interval result (uncaught `TypeError`
from `energy_data.extend(None)`). -/
theorem core_operations_can_raise :
    requestResult (.response 500 false none "u") = .error .jsonDecodeError ∧
    requestResult (.response 503 false (some (JSONValue.str "busy")) "u") =
      .error .attributeError ∧
    _load_energy (fun _ => (none, none)) [⟨0, 1⟩] [] = .error .typeError :=
  ⟨rfl, rfl, rfl⟩

/-- C7: on a 404 whose body is the JSON object with a `message` field
the error carries status 404, the URL and the message "not found", and
with a `message`-less object body the message defaults to the empty
string — but on a 404 whose body is not parsable JSON the handler
itself raises `json.JSONDecodeError` instead of defaulting. -/
theorem http_error_message_extraction :
    requestResult (.response 404 false
        (some (JSONValue.obj [("message", JSONValue.str "not found")])) "u") =
      .ok (none, some (.httpStatus 404 "u" (JSONValue.str "not found"))) ∧
    requestResult (.response 404 false
        (some (JSONValue.obj [("code", JSONValue.num 1)])) "u") =
      .ok (none, some (.httpStatus 404 "u" (JSONValue.str ""))) ∧
    requestResult (.response 404 false none "u") = .error .jsonDecodeError :=
  ⟨rfl, rfl, rfl⟩

/-- C8: `update_wifi_credentials` with neither SSID nor PSK does return
the `CallerError` tuple with no request issued, but `get_status_history`
with both bounds `None`, or with start after end, raises `TypeError`
(the `RestError` construction lacks its required `request` argument)
instead of returning `(None, error)`; and `load_long_energy` with start
after end performs no validation at all — it issues no request and
returns `([], None)` with no error. -/
theorem caller_error_validation_bug :
    get_status_history none none = .raised .typeError ∧
    get_status_history (some 5) (some 3) = .raised .typeError ∧
    update_wifi_credentials none none =
      .callerError "Request to update WiFi credentials requires at least one of SSID and PSK to be defined." ∧
    load_long_energy (fun _ => (none, none)) 10 0 Granularity.FIVE_MINS =
      some (.ok (some [], none)) :=
  ⟨rfl, rfl, rfl, rfl⟩
